import Mathlib

/-!
Verification of the particle force-field simulation in
`src/src/js/context/webgl/Sphere.ts` (the `Canvas` class): per-particle
integration (`_vertexUpdate`), the `attraction` / `repulsion` force helpers,
the phase-toggle cadence of `_update`, the elapsed-phase clock, the boundary
wrap, and particle allocation in `boot`.

JavaScript numbers are modelled as real numbers (`ℝ`).  Note that Lean's
real division satisfies `x / 0 = 0` where IEEE floats give `±Infinity`;
every statement proved below that involves a zero divisor is restricted to
facts that hold under both conventions (e.g. "the branch is taken", "the
force accumulator is modified"), and each such place is flagged in a
doc comment.  `THREE.Math.randFloat` draws are modelled by an explicit
sampler argument.  Definitions follow the source statement by statement;
the spec-side staged pipeline (`recombineForce`, `applyPhaseForces`,
`integrateStep`, `wrapBounds`) is written from the spec's words and proved
equal to the source's monolithic `_vertexUpdate`.
-/

namespace Sketch

/-- A 3-component vector, modelling `THREE.Vector3`. -/
@[ext]
structure Vec3 where
  x : ℝ
  y : ℝ
  z : ℝ

/-- A particle as built in `boot` (Sphere.ts lines 394-406): a vertex whose
`x`, `y`, `z` are its position, carrying `velocity`, `force`, `friction`
and `mass` attributes. -/
@[ext]
structure Vertex where
  x : ℝ
  y : ℝ
  z : ℝ
  velocity : Vec3
  force : Vec3
  friction : ℝ
  mass : ℝ

/-- `THREE.Vector3.length()`: the Euclidean length `sqrt (x*x + y*y + z*z)`. -/
noncomputable def len3 (v : Vec3) : ℝ :=
  Real.sqrt (v.x * v.x + v.y * v.y + v.z * v.z)

/-- `THREE.Vector3.normalize()`: divide by the length, with the divisor
replaced by `1` when the length is `0` (`divideScalar(length() || 1)`), so
the zero vector normalizes to itself. -/
noncomputable def normalizeV (v : Vec3) : Vec3 :=
  let d := if len3 v = 0 then 1 else len3 v
  ⟨v.x / d, v.y / d, v.z / d⟩

/-- The difference vector built at the top of `attraction` / `repulsion`
(Sphere.ts lines 556-559 and 584-587): `diff = vertex - posOfForce`. -/
def diffOf (v : Vertex) (forceX forceY forceZ : ℝ) : Vec3 :=
  ⟨v.x - forceX, v.y - forceY, v.z - forceZ⟩

/-- The `bAmCloseEnough` flag of `attraction` / `repulsion` (Sphere.ts
lines 563-569): it starts `true` and is cleared only when `radius > 0`
and the distance exceeds `radius`; for `radius ≤ 0` it stays `true`. -/
noncomputable def closeEnough (radius length : ℝ) : Bool :=
  if radius > 0 then (if length > radius then false else true) else true

/-- `attraction` (Sphere.ts lines 553-578): inside the radius, subtract
`normalize(diff) * scale * pct` from the force accumulator componentwise on
X and Y, with `pct = 1 - length/radius`; the Z slot is then assigned from
the just-updated Y force minus the same Y term
(`vertex.force.z = vertex.force.y - diff.y * scale * pct`). -/
noncomputable def attraction (vertex : Vertex)
    (forceX forceY forceZ radius scale : ℝ) : Vertex :=
  let diff := diffOf vertex forceX forceY forceZ
  let length := len3 diff
  if closeEnough radius length then
    let pct := 1 - length / radius
    let d := normalizeV diff
    let fx := vertex.force.x - d.x * scale * pct
    let fy := vertex.force.y - d.y * scale * pct
    { vertex with force := ⟨fx, fy, fy - d.y * scale * pct⟩ }
  else
    vertex

/-- `repulsion` (Sphere.ts lines 581-606): identical to `attraction` but
adding the contribution; the Z slot is assigned from the just-updated Y
force plus the same Y term
(`vertex.force.z = vertex.force.y + diff.y * scale * pct`). -/
noncomputable def repulsion (vertex : Vertex)
    (forceX forceY forceZ radius scale : ℝ) : Vertex :=
  let diff := diffOf vertex forceX forceY forceZ
  let length := len3 diff
  if closeEnough radius length then
    let pct := 1 - length / radius
    let d := normalizeV diff
    let fx := vertex.force.x + d.x * scale * pct
    let fy := vertex.force.y + d.y * scale * pct
    { vertex with force := ⟨fx, fy, fy + d.y * scale * pct⟩ }
  else
    vertex

/-- The `_forcePhase` field: `'attraction' | 'repulsion'`. -/
inductive Phase
  | attraction
  | repulsion
deriving DecidableEq

/-- `_vertexUpdate` (Sphere.ts lines 474-550), statement by statement:
force recombination, the phase-selected pair of force contributions with
the source's constants, velocity then position integration, and the six
sequential wrap guards (each guard touches only its own coordinate). -/
noncomputable def vertexUpdate (phase : Phase) (px py pz deltaTime ww wh depth : ℝ)
    (vertex : Vertex) : Vertex :=
  let v1 : Vertex := { vertex with force :=
    ⟨(vertex.force.x - vertex.velocity.x * vertex.friction) * 0.41 * deltaTime,
     (vertex.force.y - vertex.velocity.y * vertex.friction) * 0.41 * deltaTime,
     (vertex.force.z - vertex.velocity.z * vertex.friction) * 0.41 * deltaTime⟩ }
  let v2 : Vertex :=
    match phase with
    | Phase.attraction =>
        repulsion (attraction v1 px py pz 900 0.02)
          (px * 0.5) (py * 0.5) (pz * 0.5) 200 0.02
    | Phase.repulsion =>
        repulsion (attraction v1 (px * (-0.5)) (py * (-0.5)) (pz * (-0.5)) 500 0.02)
          px py pz 300 0.02
  let vel : Vec3 :=
    ⟨v2.velocity.x + v2.force.x * 0.41 * deltaTime,
     v2.velocity.y + v2.force.y * 0.41 * deltaTime,
     v2.velocity.z + v2.force.z * 0.41 * deltaTime⟩
  let px1 := v2.x + vel.x * deltaTime
  let py1 := v2.y + vel.y * deltaTime
  let pz1 := v2.z + vel.z * deltaTime
  let xa := if px1 > ww then -ww else px1
  let ya := if py1 > wh then -wh else py1
  let za := if pz1 > depth then -depth else pz1
  let xb := if xa < -ww then ww else xa
  let yb := if ya < -wh then wh else ya
  let zb := if za < -depth then depth else za
  { v2 with velocity := vel, x := xb, y := yb, z := zb }

/-- Spec-side stage (from "recombine the prior `force` with a damped
function of the current `velocity` and the particle's `friction`, scaled by
a fixed damping constant (0.41) and `deltaTime`"): the componentwise
`force := (force - velocity * friction) * 0.41 * deltaTime`. -/
noncomputable def recombineForce (deltaTime : ℝ) (vertex : Vertex) : Vertex :=
  { vertex with force :=
    ⟨(vertex.force.x - vertex.velocity.x * vertex.friction) * 0.41 * deltaTime,
     (vertex.force.y - vertex.velocity.y * vertex.friction) * 0.41 * deltaTime,
     (vertex.force.z - vertex.velocity.z * vertex.friction) * 0.41 * deltaTime⟩ }

/-- Spec-side stage: the two phase-selected force contributions
(attraction phase: `attraction(pos, 900, 0.02)` then
`repulsion(pos * 0.5, 200, 0.02)`; repulsion phase:
`attraction(pos * -0.5, 500, 0.02)` then `repulsion(pos, 300, 0.02)`). -/
noncomputable def applyPhaseForces (phase : Phase) (px py pz : ℝ)
    (vertex : Vertex) : Vertex :=
  match phase with
  | Phase.attraction =>
      repulsion (attraction vertex px py pz 900 0.02)
        (px * 0.5) (py * 0.5) (pz * 0.5) 200 0.02
  | Phase.repulsion =>
      repulsion (attraction vertex (px * (-0.5)) (py * (-0.5)) (pz * (-0.5)) 500 0.02)
        px py pz 300 0.02

/-- Spec-side stage (from "integrate `velocity += force * 0.41 * deltaTime`
and `position += velocity * deltaTime`"): velocity first, then position
from the updated velocity. -/
noncomputable def integrateStep (deltaTime : ℝ) (vertex : Vertex) : Vertex :=
  let vel : Vec3 :=
    ⟨vertex.velocity.x + vertex.force.x * 0.41 * deltaTime,
     vertex.velocity.y + vertex.force.y * 0.41 * deltaTime,
     vertex.velocity.z + vertex.force.z * 0.41 * deltaTime⟩
  { vertex with
    velocity := vel
    x := vertex.x + vel.x * deltaTime
    y := vertex.y + vel.y * deltaTime
    z := vertex.z + vel.z * deltaTime }

/-- First wrap guard on one axis (Sphere.ts lines 526-537): past the
positive bound the coordinate is teleported to the negative bound. -/
noncomputable def wrapHigh (bound p : ℝ) : ℝ :=
  if p > bound then -bound else p

/-- Both wrap guards on one axis (Sphere.ts lines 526-549): the second
guard teleports a coordinate past the negative bound to the positive
bound.  It reads the coordinate already rewritten by the first guard. -/
noncomputable def wrapAxis (bound p : ℝ) : ℝ :=
  if wrapHigh bound p < -bound then bound else wrapHigh bound p

/-- The whole wrap step: each axis is wrapped independently against its own
bound; velocity, force, friction and mass are untouched. -/
noncomputable def wrapBounds (ww wh depth : ℝ) (vertex : Vertex) : Vertex :=
  { vertex with
    x := wrapAxis ww vertex.x
    y := wrapAxis wh vertex.y
    z := wrapAxis depth vertex.z }

/-- `defaults.depth` (Sphere.ts line 281): the Z bound of the wrap. -/
def defaultsDepth : ℝ := 0

/-- The toggle in `_update` (Sphere.ts lines 458-462). -/
def phaseToggle : Phase → Phase
  | Phase.attraction => Phase.repulsion
  | Phase.repulsion => Phase.attraction

/-- The phase-toggle check of one `_update` call (Sphere.ts line 457):
the toggle fires when `frameCount % (60 * 8) === 0`. -/
def updatePhase (phase : Phase) (frameCount : ℕ) : Phase :=
  if frameCount % (60 * 8) = 0 then phaseToggle phase else phase

/-- The `(forcePhase, frameCount)` state after `n` calls to `_update`,
starting from `('attraction', 1)` (Sphere.ts lines 313-314): each call
runs the toggle check on the current count, then increments it. -/
def phaseState : ℕ → Phase × ℕ
  | 0 => (Phase.attraction, 1)
  | n + 1 =>
    let s := phaseState n
    (updatePhase s.1 s.2, s.2 + 1)

/-- The elapsed-phase advance of one `_update` call (Sphere.ts lines
433-435): `tick += delta * 0.1 * deltaTime`, where `delta` is the
wall-clock interval returned by `THREE.Clock.getDelta()`. -/
noncomputable def tickAdvance (tick delta deltaTime : ℝ) : ℝ :=
  tick + delta * 0.1 * deltaTime

/-- The elapsed-phase accumulator after a run of updates, each update
supplying its `(delta, deltaTime)` pair; `_tick` starts as `null`, which
JavaScript coerces to `0` on the first `+=`. -/
noncomputable def tickAfter (updates : List (ℝ × ℝ)) : ℝ :=
  updates.foldl (fun t p => tickAdvance t p.1 p.2) 0

/-- One particle as allocated by `boot` (Sphere.ts lines 394-406): the
three position draws come from the sampler, velocity and force start at
zero, friction `0.01`, mass `1.0`. -/
def bootVertex (p : ℝ × ℝ × ℝ) : Vertex :=
  { x := p.1
    y := p.2.1
    z := p.2.2
    velocity := ⟨0, 0, 0⟩
    force := ⟨0, 0, 0⟩
    friction := 0.01
    mass := 1 }

/-- The particle allocation loop of `boot` (Sphere.ts lines 394-406):
`len` iterations, each pushing one vertex whose position draws
(`THREE.Math.randFloat`) are modelled by `sample`.  `boot` contains no
validation and no throw: every call returns the allocated list, and a
non-positive count simply yields the empty list (the loop body never
runs). -/
def boot (len : ℕ) (sample : ℕ → ℝ × ℝ × ℝ) : List Vertex :=
  (List.range len).map (fun i => bootVertex (sample i))

/-- Magnitude of the change a force helper made to the X and Y components
of the force accumulator: `w` is the updated vertex, `v` the original. -/
noncomputable def forceDeltaXY (v w : Vertex) : ℝ :=
  Real.sqrt ((w.force.x - v.force.x) * (w.force.x - v.force.x) +
    (w.force.y - v.force.y) * (w.force.y - v.force.y))

/-- Magnitude of the change a force helper made to the full force
accumulator (all three components). -/
noncomputable def forceDelta3 (v w : Vertex) : ℝ :=
  Real.sqrt ((w.force.x - v.force.x) * (w.force.x - v.force.x) +
    (w.force.y - v.force.y) * (w.force.y - v.force.y) +
    (w.force.z - v.force.z) * (w.force.z - v.force.z))

/-! ### Structural lemmas -/

/-- The monolithic `_vertexUpdate` is exactly the staged pipeline: force
recombination, phase-selected contributions, integration, boundary wrap. -/
theorem vertexUpdate_eq_stages (phase : Phase) (px py pz dt ww wh depth : ℝ)
    (v : Vertex) :
    vertexUpdate phase px py pz dt ww wh depth v =
      wrapBounds ww wh depth
        (integrateStep dt (applyPhaseForces phase px py pz (recombineForce dt v))) := by
  cases phase <;> rfl

theorem wrapAxis_high (bound p : ℝ) (h : p > bound) : wrapAxis bound p = -bound := by
  unfold wrapAxis wrapHigh
  rw [if_pos h, if_neg (lt_irrefl _)]

theorem wrapAxis_low (bound p : ℝ) (hb : 0 ≤ bound) (h : p < -bound) :
    wrapAxis bound p = bound := by
  unfold wrapAxis wrapHigh
  rw [if_neg (by push_neg; linarith : ¬p > bound), if_pos h]

theorem wrapAxis_mem (bound p : ℝ) (hb : 0 ≤ bound) :
    -bound ≤ wrapAxis bound p ∧ wrapAxis bound p ≤ bound := by
  unfold wrapAxis wrapHigh
  split_ifs <;> constructor <;> linarith

theorem wrapAxis_zero (p : ℝ) : wrapAxis 0 p = 0 := by
  unfold wrapAxis wrapHigh
  split_ifs <;> linarith

theorem phaseState_count (n : ℕ) : (phaseState n).2 = n + 1 := by
  induction n with
  | zero => rfl
  | succ n ih => simp [phaseState, ih]

/-! ### Claims -/

/-- C1: boundary containment — for every particle and any per-frame update
(any phase, attractor position, delta, and non-negative bounds `ww`, `wh`,
`depth`, the code's X/Y/Z wrap bounds), the position returned by
`_vertexUpdate` satisfies `-ww ≤ x ≤ ww`, `-wh ≤ y ≤ wh`,
`-depth ≤ z ≤ depth`: the wrap-around step never leaves a particle outside
these bounds. -/
theorem C1_boundary_containment (phase : Phase) (px py pz dt ww wh depth : ℝ)
    (v : Vertex) (hw : 0 ≤ ww) (hh : 0 ≤ wh) (hd : 0 ≤ depth) :
    (-ww ≤ (vertexUpdate phase px py pz dt ww wh depth v).x ∧
      (vertexUpdate phase px py pz dt ww wh depth v).x ≤ ww) ∧
    (-wh ≤ (vertexUpdate phase px py pz dt ww wh depth v).y ∧
      (vertexUpdate phase px py pz dt ww wh depth v).y ≤ wh) ∧
    (-depth ≤ (vertexUpdate phase px py pz dt ww wh depth v).z ∧
      (vertexUpdate phase px py pz dt ww wh depth v).z ≤ depth) := by
  rw [vertexUpdate_eq_stages]
  exact ⟨wrapAxis_mem ww _ hw, wrapAxis_mem wh _ hh, wrapAxis_mem depth _ hd⟩

/-- Witness for C1 at a concrete configuration. -/
theorem C1_boundary_containment_witness :
    (0 : ℝ) ≤ 1 ∧
    ((-1 ≤ (vertexUpdate Phase.attraction 0 0 0 1 1 1 0 (bootVertex (0, 0, 0))).x ∧
       (vertexUpdate Phase.attraction 0 0 0 1 1 1 0 (bootVertex (0, 0, 0))).x ≤ 1) ∧
     (-1 ≤ (vertexUpdate Phase.attraction 0 0 0 1 1 1 0 (bootVertex (0, 0, 0))).y ∧
       (vertexUpdate Phase.attraction 0 0 0 1 1 1 0 (bootVertex (0, 0, 0))).y ≤ 1) ∧
     (-(0 : ℝ) ≤ (vertexUpdate Phase.attraction 0 0 0 1 1 1 0 (bootVertex (0, 0, 0))).z ∧
       (vertexUpdate Phase.attraction 0 0 0 1 1 1 0 (bootVertex (0, 0, 0))).z ≤ 0)) :=
  ⟨by norm_num,
    C1_boundary_containment Phase.attraction 0 0 0 1 1 1 0 (bootVertex (0, 0, 0))
      (by norm_num) (by norm_num) (le_refl 0)⟩

/-- C2: wrap semantics — the wrap step leaves velocity and force untouched
(teleport, not reflection), acts on each position coordinate independently,
and on each axis a coordinate past the positive bound is set to the
negative bound (and symmetrically past the negative bound, for a
non-negative bound). -/
theorem C2_wrap_teleport (ww wh depth : ℝ) (v : Vertex) :
    (wrapBounds ww wh depth v).velocity = v.velocity ∧
    (wrapBounds ww wh depth v).force = v.force ∧
    (wrapBounds ww wh depth v).x = wrapAxis ww v.x ∧
    (wrapBounds ww wh depth v).y = wrapAxis wh v.y ∧
    (wrapBounds ww wh depth v).z = wrapAxis depth v.z ∧
    (v.x > ww → (wrapBounds ww wh depth v).x = -ww) ∧
    (0 ≤ ww → v.x < -ww → (wrapBounds ww wh depth v).x = ww) ∧
    (v.y > wh → (wrapBounds ww wh depth v).y = -wh) ∧
    (0 ≤ wh → v.y < -wh → (wrapBounds ww wh depth v).y = wh) ∧
    (v.z > depth → (wrapBounds ww wh depth v).z = -depth) ∧
    (0 ≤ depth → v.z < -depth → (wrapBounds ww wh depth v).z = depth) :=
  ⟨rfl, rfl, rfl, rfl, rfl,
    fun h => wrapAxis_high ww v.x h,
    fun hb h => wrapAxis_low ww v.x hb h,
    fun h => wrapAxis_high wh v.y h,
    fun hb h => wrapAxis_low wh v.y hb h,
    fun h => wrapAxis_high depth v.z h,
    fun hb h => wrapAxis_low depth v.z hb h⟩

/-- Witness for C2: the spec scenario — bound 500, a particle at
`x = 501` wraps to `x = -500`, velocity unchanged. -/
theorem C2_wrap_teleport_witness :
    (501 : ℝ) > 500 ∧
    (wrapBounds 500 500 0 (bootVertex (501, 0, 0))).x = -500 ∧
    (wrapBounds 500 500 0 (bootVertex (501, 0, 0))).velocity =
      (bootVertex (501, 0, 0)).velocity :=
  ⟨by norm_num,
    (C2_wrap_teleport 500 500 0 (bootVertex (501, 0, 0))).2.2.2.2.2.1
      (by simp [bootVertex]; norm_num),
    (C2_wrap_teleport 500 500 0 (bootVertex (501, 0, 0))).1⟩

/-- C3: per-tick integration — `_vertexUpdate` is exactly: recombine
`force := (force - velocity * friction) * 0.41 * deltaTime` componentwise
(`recombineForce`), then the phase contributions (`applyPhaseForces`), then
`velocity += force * 0.41 * deltaTime` followed by
`position += velocity * deltaTime` (`integrateStep`), and only then the
boundary wrap (`wrapBounds`). -/
theorem C3_integration_order (phase : Phase) (px py pz dt ww wh depth : ℝ)
    (v : Vertex) :
    vertexUpdate phase px py pz dt ww wh depth v =
      wrapBounds ww wh depth
        (integrateStep dt (applyPhaseForces phase px py pz (recombineForce dt v))) :=
  vertexUpdate_eq_stages phase px py pz dt ww wh depth v

set_option maxRecDepth 100000 in
/-- C4: phase toggling — the simulator starts in the attraction phase
(`_forcePhase = 'attraction'`, `_frameCount = 1`); after exactly 480 calls
to `_update` the phase is repulsion, after exactly 960 it is attraction
again, and in general the toggle of call `n + 1` fires exactly when
`(n + 1) % 480 = 0`. -/
theorem C4_phase_toggling :
    (phaseState 0).1 = Phase.attraction ∧
    (phaseState 480).1 = Phase.repulsion ∧
    (phaseState 960).1 = Phase.attraction ∧
    ∀ n : ℕ, (phaseState (n + 1)).1 =
      (if (n + 1) % 480 = 0 then phaseToggle (phaseState n).1 else (phaseState n).1) := by
  refine ⟨by decide, by decide, by decide, fun n => ?_⟩
  show (updatePhase (phaseState n).1 (phaseState n).2) = _
  rw [phaseState_count n]
  simp [updatePhase]

/-- C10: with the default configuration's `depth = 0` (`defaults.depth`),
every call to `_vertexUpdate` returns a particle with `z = 0`: a positive
integrated `z` is wrapped to `-0` and a negative one to `+0` (which
coincide in `ℝ`), so the rendered field stays in the `z = 0` plane. -/
theorem C10_default_depth_zero_plane (phase : Phase) (px py pz dt ww wh : ℝ)
    (v : Vertex) :
    (vertexUpdate phase px py pz dt ww wh defaultsDepth v).z = 0 := by
  rw [vertexUpdate_eq_stages]
  show wrapAxis defaultsDepth _ = 0
  rw [show defaultsDepth = 0 from rfl]
  exact wrapAxis_zero _

/-! ### Force-helper lemmas -/

theorem closeEnough_of_le (r l : ℝ) (hr : 0 < r) (h : l ≤ r) :
    closeEnough r l = true := by
  unfold closeEnough
  rw [if_pos hr, if_neg (not_lt.mpr h)]

theorem closeEnough_zero_radius (l : ℝ) : closeEnough 0 l = true := by
  unfold closeEnough
  rw [if_neg (lt_irrefl 0)]

theorem len3_x (a : ℝ) (ha : 0 ≤ a) : len3 ⟨a, 0, 0⟩ = a := by
  unfold len3
  dsimp only
  rw [show a * a + 0 * 0 + 0 * 0 = a ^ 2 by ring, Real.sqrt_sq ha]

theorem len3_y (a : ℝ) (ha : 0 ≤ a) : len3 ⟨0, a, 0⟩ = a := by
  unfold len3
  dsimp only
  rw [show 0 * 0 + a * a + 0 * 0 = a ^ 2 by ring, Real.sqrt_sq ha]

theorem normalizeV_y (a : ℝ) (ha : 0 < a) : normalizeV ⟨0, a, 0⟩ = ⟨0, 1, 0⟩ := by
  simp only [normalizeV]
  rw [len3_y a ha.le, if_neg (ne_of_gt ha)]
  exact Vec3.ext (zero_div a) (div_self (ne_of_gt ha)) (zero_div a)

/-- Closed form of `attraction` when the `bAmCloseEnough` branch fires. -/
theorem attraction_inRadius (v : Vertex) (cx cy cz r s : ℝ)
    (h : closeEnough r (len3 (diffOf v cx cy cz)) = true) :
    attraction v cx cy cz r s =
      { v with force :=
        ⟨v.force.x - (normalizeV (diffOf v cx cy cz)).x * s *
            (1 - len3 (diffOf v cx cy cz) / r),
         v.force.y - (normalizeV (diffOf v cx cy cz)).y * s *
            (1 - len3 (diffOf v cx cy cz) / r),
         v.force.y - (normalizeV (diffOf v cx cy cz)).y * s *
            (1 - len3 (diffOf v cx cy cz) / r) -
          (normalizeV (diffOf v cx cy cz)).y * s *
            (1 - len3 (diffOf v cx cy cz) / r)⟩ } := by
  simp only [attraction, h, eq_self_iff_true, if_true]

/-- Closed form of `repulsion` when the `bAmCloseEnough` branch fires. -/
theorem repulsion_inRadius (v : Vertex) (cx cy cz r s : ℝ)
    (h : closeEnough r (len3 (diffOf v cx cy cz)) = true) :
    repulsion v cx cy cz r s =
      { v with force :=
        ⟨v.force.x + (normalizeV (diffOf v cx cy cz)).x * s *
            (1 - len3 (diffOf v cx cy cz) / r),
         v.force.y + (normalizeV (diffOf v cx cy cz)).y * s *
            (1 - len3 (diffOf v cx cy cz) / r),
         v.force.y + (normalizeV (diffOf v cx cy cz)).y * s *
            (1 - len3 (diffOf v cx cy cz) / r) +
          (normalizeV (diffOf v cx cy cz)).y * s *
            (1 - len3 (diffOf v cx cy cz) / r)⟩ } := by
  simp only [repulsion, h, eq_self_iff_true, if_true]

/-- `attraction` evaluated at a vertex sitting at distance `a` from the
center along the unit direction `u`, inside the radius. -/
theorem attraction_ray (cx cy cz r s a : ℝ) (u : Vec3) (hu : len3 u = 1)
    (ha : 0 < a) (har : a ≤ r) (hr : 0 < r) (v : Vertex)
    (hx : v.x = cx + a * u.x) (hy : v.y = cy + a * u.y) (hz : v.z = cz + a * u.z) :
    attraction v cx cy cz r s =
      { v with force :=
        ⟨v.force.x - u.x * s * (1 - a / r),
         v.force.y - u.y * s * (1 - a / r),
         v.force.y - u.y * s * (1 - a / r) - u.y * s * (1 - a / r)⟩ } := by
  have hdiff : diffOf v cx cy cz = ⟨a * u.x, a * u.y, a * u.z⟩ := by
    simp only [diffOf, hx, hy, hz, Vec3.mk.injEq]
    exact ⟨by ring, by ring, by ring⟩
  have hlen : len3 ⟨a * u.x, a * u.y, a * u.z⟩ = a := by
    unfold len3 at hu ⊢
    dsimp only
    rw [show a * u.x * (a * u.x) + a * u.y * (a * u.y) + a * u.z * (a * u.z) =
          a ^ 2 * (u.x * u.x + u.y * u.y + u.z * u.z) by ring,
        Real.sqrt_mul (sq_nonneg a), Real.sqrt_sq ha.le, hu, mul_one]
  have hnorm : normalizeV ⟨a * u.x, a * u.y, a * u.z⟩ = u := by
    simp only [normalizeV]
    rw [hlen, if_neg (ne_of_gt ha)]
    exact Vec3.ext (mul_div_cancel_left₀ _ (ne_of_gt ha))
      (mul_div_cancel_left₀ _ (ne_of_gt ha)) (mul_div_cancel_left₀ _ (ne_of_gt ha))
  rw [attraction_inRadius v cx cy cz r s (by rw [hdiff, hlen]; exact closeEnough_of_le r a hr har)]
  rw [hdiff, hlen, hnorm]

/-- `repulsion` evaluated at a vertex sitting at distance `a` from the
center along the unit direction `u`, inside the radius. -/
theorem repulsion_ray (cx cy cz r s a : ℝ) (u : Vec3) (hu : len3 u = 1)
    (ha : 0 < a) (har : a ≤ r) (hr : 0 < r) (v : Vertex)
    (hx : v.x = cx + a * u.x) (hy : v.y = cy + a * u.y) (hz : v.z = cz + a * u.z) :
    repulsion v cx cy cz r s =
      { v with force :=
        ⟨v.force.x + u.x * s * (1 - a / r),
         v.force.y + u.y * s * (1 - a / r),
         v.force.y + u.y * s * (1 - a / r) + u.y * s * (1 - a / r)⟩ } := by
  have hdiff : diffOf v cx cy cz = ⟨a * u.x, a * u.y, a * u.z⟩ := by
    simp only [diffOf, hx, hy, hz, Vec3.mk.injEq]
    exact ⟨by ring, by ring, by ring⟩
  have hlen : len3 ⟨a * u.x, a * u.y, a * u.z⟩ = a := by
    unfold len3 at hu ⊢
    dsimp only
    rw [show a * u.x * (a * u.x) + a * u.y * (a * u.y) + a * u.z * (a * u.z) =
          a ^ 2 * (u.x * u.x + u.y * u.y + u.z * u.z) by ring,
        Real.sqrt_mul (sq_nonneg a), Real.sqrt_sq ha.le, hu, mul_one]
  have hnorm : normalizeV ⟨a * u.x, a * u.y, a * u.z⟩ = u := by
    simp only [normalizeV]
    rw [hlen, if_neg (ne_of_gt ha)]
    exact Vec3.ext (mul_div_cancel_left₀ _ (ne_of_gt ha))
      (mul_div_cancel_left₀ _ (ne_of_gt ha)) (mul_div_cancel_left₀ _ (ne_of_gt ha))
  rw [repulsion_inRadius v cx cy cz r s (by rw [hdiff, hlen]; exact closeEnough_of_le r a hr har)]
  rw [hdiff, hlen, hnorm]

/-- XY force-change magnitude of a subtractive contribution. -/
theorem forceDeltaXY_sub (v : Vertex) (ux uy s p z : ℝ) (hs : 0 ≤ s) (hp : 0 ≤ p) :
    forceDeltaXY v
      { v with force := ⟨v.force.x - ux * s * p, v.force.y - uy * s * p, z⟩ } =
      s * p * Real.sqrt (ux * ux + uy * uy) := by
  unfold forceDeltaXY
  dsimp only
  rw [show (v.force.x - ux * s * p - v.force.x) * (v.force.x - ux * s * p - v.force.x) +
        (v.force.y - uy * s * p - v.force.y) * (v.force.y - uy * s * p - v.force.y) =
        (s * p) ^ 2 * (ux * ux + uy * uy) by ring,
      Real.sqrt_mul (sq_nonneg _), Real.sqrt_sq (mul_nonneg hs hp)]

/-! ### Claims C5-C9 -/

/-- C5 counterexample: the claim says both helpers write
`force.z = force.y - diff.y * scale * pct`, but `repulsion` (Sphere.ts
line 604) writes it with a plus sign.  At the vertex `(0, 3, 0)` with zero
prior force, center the origin, radius 6 and scale 1, `repulsion` produces
`force.z = 1` while the claimed formula gives
`force.y - diff.y * scale * pct = 1/2 - 1/2 = 0`. -/
theorem C5_counterexample :
    (repulsion (bootVertex (0, 3, 0)) 0 0 0 6 1).force.z ≠
      (repulsion (bootVertex (0, 3, 0)) 0 0 0 6 1).force.y -
        (normalizeV (diffOf (bootVertex (0, 3, 0)) 0 0 0)).y * 1 *
          (1 - len3 (diffOf (bootVertex (0, 3, 0)) 0 0 0) / 6) := by
  have hu : len3 ⟨0, 1, 0⟩ = 1 := len3_y 1 (by norm_num)
  have hdiff : diffOf (bootVertex (0, 3, 0)) 0 0 0 = ⟨0, 3, 0⟩ := by
    simp [diffOf, bootVertex]
  have hrep := repulsion_ray 0 0 0 6 1 3 ⟨0, 1, 0⟩ hu (by norm_num) (by norm_num)
    (by norm_num) (bootVertex (0, 3, 0)) (by norm_num [bootVertex])
    (by norm_num [bootVertex]) (by norm_num [bootVertex])
  rw [hrep, hdiff, len3_y 3 (by norm_num), normalizeV_y 3 (by norm_num)]
  dsimp [bootVertex]
  norm_num

/-- C5 (amended): whenever the in-radius branch of either helper fires,
the Z force slot is assigned from the already-updated Y force slot and the
Y component of the normalized difference — `attraction` with a minus sign
(`force.z = force.y - diff.y * scale * pct`), `repulsion` with a plus sign
(`force.z = force.y + diff.y * scale * pct`); neither uses `diff.z`. -/
theorem C5_z_slot_from_y (v : Vertex) (cx cy cz r s : ℝ)
    (h : closeEnough r (len3 (diffOf v cx cy cz)) = true) :
    (attraction v cx cy cz r s).force.z =
      (attraction v cx cy cz r s).force.y -
        (normalizeV (diffOf v cx cy cz)).y * s *
          (1 - len3 (diffOf v cx cy cz) / r) ∧
    (repulsion v cx cy cz r s).force.z =
      (repulsion v cx cy cz r s).force.y +
        (normalizeV (diffOf v cx cy cz)).y * s *
          (1 - len3 (diffOf v cx cy cz) / r) := by
  rw [attraction_inRadius v cx cy cz r s h, repulsion_inRadius v cx cy cz r s h]
  exact ⟨rfl, rfl⟩

/-- Witness for C5 (amended) at the vertex `(0, 3, 0)`, center the origin,
radius 6, scale 1. -/
theorem C5_z_slot_from_y_witness :
    closeEnough 6 (len3 (diffOf (bootVertex (0, 3, 0)) 0 0 0)) = true ∧
    (attraction (bootVertex (0, 3, 0)) 0 0 0 6 1).force.z =
      (attraction (bootVertex (0, 3, 0)) 0 0 0 6 1).force.y -
        (normalizeV (diffOf (bootVertex (0, 3, 0)) 0 0 0)).y * 1 *
          (1 - len3 (diffOf (bootVertex (0, 3, 0)) 0 0 0) / 6) := by
  have hdiff : diffOf (bootVertex (0, 3, 0)) 0 0 0 = ⟨0, 3, 0⟩ := by
    simp [diffOf, bootVertex]
  have hclose : closeEnough 6 (len3 (diffOf (bootVertex (0, 3, 0)) 0 0 0)) = true := by
    rw [hdiff, len3_y 3 (by norm_num)]
    exact closeEnough_of_le 6 3 (by norm_num) (by norm_num)
  exact ⟨hclose, (C5_z_slot_from_y (bootVertex (0, 3, 0)) 0 0 0 6 1 hclose).1⟩

/-- C6 counterexample: the claim says `initialize` fails with
`InvalidConfiguration` when the particle count is `≤ 0`, but `boot`
(Sphere.ts lines 367-420) performs no validation and contains no throw:
with count `0` (the JavaScript loop with a non-positive `len` runs zero
iterations) it succeeds and returns the empty particle list. -/
theorem C6_counterexample : boot 0 (fun _ => (0, 0, 0)) = [] := rfl

/-- C6 (amended): `boot` never fails — it performs no validation; for
every count it allocates exactly `len` particles, each with zero initial
velocity and force, friction `0.01` and mass `1.0` (positions are the
sampler's draws). -/
theorem C6_boot_allocation (len : ℕ) (sample : ℕ → ℝ × ℝ × ℝ) :
    (boot len sample).length = len ∧
    ∀ v ∈ boot len sample,
      v.velocity = ⟨0, 0, 0⟩ ∧ v.force = ⟨0, 0, 0⟩ ∧
        v.friction = 0.01 ∧ v.mass = 1 := by
  constructor
  · simp [boot]
  · intro v hv
    simp only [boot, List.mem_map] at hv
    obtain ⟨i, _, rfl⟩ := hv
    exact ⟨rfl, rfl, rfl, rfl⟩

/-- Witness for C6 (amended) at count 1 and a constant sampler. -/
theorem C6_boot_allocation_witness :
    (boot 1 (fun _ => (0, 0, 0))).length = 1 ∧
    (bootVertex (0, 0, 0)).velocity = ⟨0, 0, 0⟩ ∧
    (bootVertex (0, 0, 0)).friction = 0.01 :=
  ⟨(C6_boot_allocation 1 (fun _ => (0, 0, 0))).1,
   ((C6_boot_allocation 1 (fun _ => (0, 0, 0))).2 (bootVertex (0, 0, 0))
      (by simp [boot])).1,
   ((C6_boot_allocation 1 (fun _ => (0, 0, 0))).2 (bootVertex (0, 0, 0))
      (by simp [boot])).2.2.1⟩

/-- C7 counterexample: with `radius = 0` the `radius > 0` guard is
skipped, so `bAmCloseEnough` stays `true` and the contribution is applied:
no error is raised (the source has no throw) and the contribution is not
skipped — the force accumulator changes, with `pct` computed from a
division whose divisor is the zero radius.  (Lean's real division returns
`0` for `x / 0` where JavaScript floats give `Infinity`; under both
conventions the branch fires and the Y force is modified — here to `-1` in
the real model, to `+Infinity` in JavaScript.) -/
theorem C7_counterexample :
    closeEnough 0 (len3 (diffOf (bootVertex (0, 5, 0)) 0 0 0)) = true ∧
    (attraction (bootVertex (0, 5, 0)) 0 0 0 0 1).force.y ≠
      (bootVertex (0, 5, 0)).force.y := by
  refine ⟨closeEnough_zero_radius _, ?_⟩
  rw [attraction_inRadius (bootVertex (0, 5, 0)) 0 0 0 0 1 (closeEnough_zero_radius _)]
  have hdiff : diffOf (bootVertex (0, 5, 0)) 0 0 0 = ⟨0, 5, 0⟩ := by
    simp [diffOf, bootVertex]
  rw [hdiff, len3_y 5 (by norm_num), normalizeV_y 5 (by norm_num)]
  dsimp [bootVertex]
  norm_num

/-- C7 (amended): a zero radius is never special-cased as "never applies"
— the `radius > 0` guard means `bAmCloseEnough` stays `true` for every
distance, and the contribution is applied unconditionally to the one
vertex passed in, with `pct = 1 - length / 0` computed from a zero
divisor; no error is raised and the tick loop is unaffected (the helper
touches only its own vertex by construction). -/
theorem C7_zero_radius_applies :
    (∀ l : ℝ, closeEnough 0 l = true) ∧
    ∀ (v : Vertex) (cx cy cz s : ℝ),
      attraction v cx cy cz 0 s =
        { v with force :=
          ⟨v.force.x - (normalizeV (diffOf v cx cy cz)).x * s *
              (1 - len3 (diffOf v cx cy cz) / 0),
           v.force.y - (normalizeV (diffOf v cx cy cz)).y * s *
              (1 - len3 (diffOf v cx cy cz) / 0),
           v.force.y - (normalizeV (diffOf v cx cy cz)).y * s *
              (1 - len3 (diffOf v cx cy cz) / 0) -
            (normalizeV (diffOf v cx cy cz)).y * s *
              (1 - len3 (diffOf v cx cy cz) / 0)⟩ } :=
  ⟨closeEnough_zero_radius,
   fun v cx cy cz s =>
     attraction_inRadius v cx cy cz 0 s (closeEnough_zero_radius _)⟩

/-- C8 counterexample: the claimed falloff monotonicity fails for the full
force-accumulator change because the copy-paste Z assignment makes the
magnitude direction-dependent.  Center the origin, radius 10, scale 1:
the particle at `(5, 0, 0)` (distance 5) gets a change of magnitude `1/2`,
while the particle at `(0, 6, 0)` (distance 6, farther) gets
`sqrt (4/5) ≈ 0.894` — strictly larger. -/
theorem C8_counterexample :
    len3 (diffOf (bootVertex (5, 0, 0)) 0 0 0) = 5 ∧
    len3 (diffOf (bootVertex (0, 6, 0)) 0 0 0) = 6 ∧
    forceDelta3 (bootVertex (5, 0, 0))
        (attraction (bootVertex (5, 0, 0)) 0 0 0 10 1) <
      forceDelta3 (bootVertex (0, 6, 0))
        (attraction (bootVertex (0, 6, 0)) 0 0 0 10 1) := by
  have hdiff1 : diffOf (bootVertex (5, 0, 0)) 0 0 0 = ⟨5, 0, 0⟩ := by
    simp [diffOf, bootVertex]
  have hdiff2 : diffOf (bootVertex (0, 6, 0)) 0 0 0 = ⟨0, 6, 0⟩ := by
    simp [diffOf, bootVertex]
  refine ⟨by rw [hdiff1]; exact len3_x 5 (by norm_num),
          by rw [hdiff2]; exact len3_y 6 (by norm_num), ?_⟩
  have hux : len3 ⟨1, 0, 0⟩ = 1 := len3_x 1 (by norm_num)
  have huy : len3 ⟨0, 1, 0⟩ = 1 := len3_y 1 (by norm_num)
  rw [attraction_ray 0 0 0 10 1 5 ⟨1, 0, 0⟩ hux (by norm_num) (by norm_num)
        (by norm_num) (bootVertex (5, 0, 0)) (by norm_num [bootVertex])
        (by norm_num [bootVertex]) (by norm_num [bootVertex]),
      attraction_ray 0 0 0 10 1 6 ⟨0, 1, 0⟩ huy (by norm_num) (by norm_num)
        (by norm_num) (bootVertex (0, 6, 0)) (by norm_num [bootVertex])
        (by norm_num [bootVertex]) (by norm_num [bootVertex])]
  unfold forceDelta3
  dsimp [bootVertex]
  apply Real.sqrt_lt_sqrt <;> norm_num

/-- C8 (amended): the linear falloff is monotone for positions along the
same ray from the center and for the X/Y components of the
force-accumulator change (the Z slot, distorted by the copy-paste
assignment of C5, and positions in different directions both break the
property, as the counterexample shows): for `0 < d1 < d2 ≤ radius` along a
unit direction `u`, the XY change magnitude of `attraction` at distance
`d1` is greater than or equal to that at `d2`. -/
theorem C8_falloff_on_ray (cx cy cz r s d1 d2 : ℝ) (u : Vec3)
    (hu : len3 u = 1) (hr : 0 < r) (hs : 0 < s) (hd1 : 0 < d1)
    (h12 : d1 < d2) (h2r : d2 ≤ r) (v1 v2 : Vertex)
    (h1x : v1.x = cx + d1 * u.x) (h1y : v1.y = cy + d1 * u.y)
    (h1z : v1.z = cz + d1 * u.z)
    (h2x : v2.x = cx + d2 * u.x) (h2y : v2.y = cy + d2 * u.y)
    (h2z : v2.z = cz + d2 * u.z) :
    forceDeltaXY v2 (attraction v2 cx cy cz r s) ≤
      forceDeltaXY v1 (attraction v1 cx cy cz r s) := by
  have hd2 : 0 < d2 := lt_trans hd1 h12
  have h1r : d1 ≤ r := le_of_lt (lt_of_lt_of_le h12 h2r)
  have hp1 : 0 ≤ 1 - d1 / r := by
    have := (div_le_one hr).mpr h1r
    linarith
  have hp2 : 0 ≤ 1 - d2 / r := by
    have := (div_le_one hr).mpr h2r
    linarith
  rw [attraction_ray cx cy cz r s d1 u hu hd1 h1r hr v1 h1x h1y h1z,
      attraction_ray cx cy cz r s d2 u hu hd2 h2r hr v2 h2x h2y h2z,
      forceDeltaXY_sub v1 u.x u.y s (1 - d1 / r) _ hs.le hp1,
      forceDeltaXY_sub v2 u.x u.y s (1 - d2 / r) _ hs.le hp2]
  apply mul_le_mul_of_nonneg_right _ (Real.sqrt_nonneg _)
  apply mul_le_mul_of_nonneg_left _ hs.le
  have : d1 / r ≤ d2 / r := (div_le_div_iff_of_pos_right hr).mpr h12.le
  linarith

/-- Witness for C8 (amended): center the origin, radius 10, scale 1,
direction `(1, 0, 0)`, distances 5 and 6. -/
theorem C8_falloff_on_ray_witness :
    (0 : ℝ) < 5 ∧ (5 : ℝ) < 6 ∧ (6 : ℝ) ≤ 10 ∧
    forceDeltaXY (bootVertex (6, 0, 0))
        (attraction (bootVertex (6, 0, 0)) 0 0 0 10 1) ≤
      forceDeltaXY (bootVertex (5, 0, 0))
        (attraction (bootVertex (5, 0, 0)) 0 0 0 10 1) :=
  ⟨by norm_num, by norm_num, by norm_num,
    C8_falloff_on_ray 0 0 0 10 1 5 6 ⟨1, 0, 0⟩ (len3_x 1 (by norm_num))
      (by norm_num) (by norm_num) (by norm_num) (by norm_num) (by norm_num)
      (bootVertex (5, 0, 0)) (bootVertex (6, 0, 0))
      (by norm_num [bootVertex]) (by norm_num [bootVertex])
      (by norm_num [bootVertex]) (by norm_num [bootVertex])
      (by norm_num [bootVertex]) (by norm_num [bootVertex])⟩

/-- C9 counterexample: the per-update advance of `_tick` is
`delta * 0.1 * deltaTime` with `delta` the wall-clock interval from
`THREE.Clock.getDelta()` (Sphere.ts lines 433-435) — not
`deltaTime * 0.1`.  With a wall-clock interval of 2 seconds and
`deltaTime = 1` the accumulator advances by `0.2`, not `0.1`. -/
theorem C9_counterexample : tickAdvance 0 2 1 ≠ 0 + 1 * 0.1 := by
  unfold tickAdvance
  norm_num

theorem tickFold (l : List (ℝ × ℝ)) :
    ∀ t : ℝ, l.foldl (fun t p => tickAdvance t p.1 p.2) t =
      t + 0.1 * (l.map (fun p => p.1 * p.2)).sum := by
  induction l with
  | nil => intro t; simp
  | cons hd tl ih =>
    intro t
    rw [List.foldl_cons, ih, List.map_cons, List.sum_cons]
    unfold tickAdvance
    ring

/-- C9 (amended): each `_update` advances the elapsed-phase accumulator by
`delta * 0.1 * deltaTime` where `delta` is the wall-clock interval since
the previous update, so after a run of updates the accumulator equals
`0.1` times the sum of the per-update products `delta * deltaTime`,
starting from 0 (`_tick` starts as `null`, coerced to 0). -/
theorem C9_tick_accumulator (updates : List (ℝ × ℝ)) :
    tickAfter updates = 0.1 * (updates.map (fun p => p.1 * p.2)).sum := by
  unfold tickAfter
  rw [tickFold]
  ring

end Sketch
